import Mathlib

/-!
# The OAuth2 front end of `app/oauth/oauth.go`

A shallow embedding of the package `oauth`: the client registry built by
`NewClientStore`, the grant configuration installed by `NewOauthServer`, and the
user-authorization gate returned by `userAuthorization`.

The gate is stateful Go code over three collaborators that the package imports:
the session store of `go-session`, the `http.ResponseWriter` and the
`*http.Request`.  Each of them is a record here and every statement of the gate
is a pure update of those records; the calls made on the session store are also
logged, in order.  A failed type assertion is the outcome `panicked`.
The `log.Printf` line of the gate only writes to the process log and has no
counterpart here.
-/

namespace Oauth

/-! ## Go values -/

/-- A Go `error` value that is not nil. -/
structure GoError where
  msg : String
deriving DecidableEq, Repr

/-- The dynamic values (`interface{}`) a session can hold. -/
inductive Value where
  | str (s : String)
  | int (n : Int)
  | bool (b : Bool)
  | nil
deriving DecidableEq, Repr

/-! ## Go maps with string keys -/

/-- Read of a key, the `v, ok := m[k]` of Go: `none` is `ok == false`. -/
def kvGet {α : Type} : List (String × α) → String → Option α
  | [], _ => none
  | (k, v) :: rest, key => if k = key then some v else kvGet rest key

/-- Removal of a key, the `delete(m, k)` of Go. -/
def kvDelete {α : Type} (m : List (String × α)) (key : String) : List (String × α) :=
  m.filter (fun p => decide (p.1 ≠ key))

/-- Assignment to a key, the `m[k] = v` of Go. -/
def kvSet {α : Type} (m : List (String × α)) (key : String) (v : α) : List (String × α) :=
  (key, v) :: kvDelete m key

/-! ## net/url and net/http -/

/-- The type `url.Values`, a `map[string][]string`. -/
abbrev Values := List (String × List String)

/-- The sixteen upper-case hexadecimal digits used by `url.QueryEscape`. -/
def upperhex (n : Nat) : Char :=
  "0123456789ABCDEF".toList.getD n '0'

/-- Bytes that `url.QueryEscape` leaves as they are (`shouldEscape` in mode
`encodeQueryComponent` answers false): ASCII letters, digits and `-_.~`. -/
def unreserved (c : Char) : Bool :=
  c.isAlphanum || c = '-' || c = '_' || c = '.' || c = '~'

/-- The escape of one character by `url.QueryEscape`: itself when unreserved, `+`
for a space, and `%XX` for each byte of its UTF-8 encoding otherwise. -/
def escapeChar (c : Char) : List Char :=
  if unreserved c then [c]
  else if c = ' ' then ['+']
  else (String.utf8EncodeChar c).flatMap
    (fun b => ['%', upperhex (b.toNat / 16), upperhex (b.toNat % 16)])

/-- The function `url.QueryEscape`. -/
def QueryEscape (s : String) : String :=
  String.mk (s.toList.flatMap escapeChar)

/-- The function `url.Values.Encode`: the keys in sorted order, every value of a key
as `key=value`, joined by `&`. -/
def Values.Encode (v : Values) : String :=
  let sorted := v.insertionSort (fun a b => a.1 ≤ b.1)
  let pairs := sorted.flatMap (fun kv => kv.2.map (fun x => QueryEscape kv.1 ++ "=" ++ QueryEscape x))
  "&".intercalate pairs

/-- The part of `*http.Request` the gate touches.  `wire` stands for the parameters
the request carries in its URL query and body, which `ParseForm` extracts;
`Form` is the field `r.Form`, `none` while it is nil. -/
structure Request where
  URL : String
  wire : Values
  Form : Option Values
deriving DecidableEq, Repr

/-- The method `(*http.Request).ParseForm`: fills `r.Form` when it is nil and leaves
a form that is already there alone.  Its error result is discarded by the gate. -/
def Request.ParseForm (r : Request) : Request :=
  match r.Form with
  | none => { r with Form := some r.wire }
  | some _ => r

/-- The type `http.Header`. -/
abbrev Header := List (String × List String)

/-- The method `http.Header.Set` for a key in canonical form. -/
def Header.Set (h : Header) (key value : String) : Header :=
  kvSet h key [value]

/-- The method `http.Header.Get`: the first value under the key, or `""`. -/
def Header.Get (h : Header) (key : String) : String :=
  match kvGet h key with
  | some (v :: _) => v
  | _ => ""

/-- An `http.ResponseWriter`: the header map and the status code, `none` until the
first `WriteHeader`. -/
structure ResponseWriter where
  header : Header
  status : Option Nat
deriving DecidableEq, Repr

/-- The method `w.Header().Set(key, value)`. -/
def ResponseWriter.HeaderSet (w : ResponseWriter) (key value : String) : ResponseWriter :=
  { w with header := Header.Set w.header key value }

/-- The method `w.WriteHeader(code)`: the first call fixes the status code, a later
one is superfluous and ignored. -/
def ResponseWriter.WriteHeader (w : ResponseWriter) (code : Nat) : ResponseWriter :=
  match w.status with
  | none => { w with status := some code }
  | some _ => w

/-- The constant `http.StatusFound`. -/
def StatusFound : Nat := 302

/-! ## go-session -/

/-- A session handle (`session.Store`): the values held in memory, the copy in
the backing storage as of the last successful `Save`, and what `Save` answers
on this handle. -/
structure Store where
  values : List (String × Value)
  persisted : List (String × Value)
  saveErr : Option GoError
deriving DecidableEq, Repr

/-- The method `Store.Get`. -/
def Store.Get (s : Store) (key : String) : Option Value :=
  kvGet s.values key

/-- The method `Store.Set`. -/
def Store.Set (s : Store) (key : String) (v : Value) : Store :=
  { s with values := kvSet s.values key v }

/-- The method `Store.Delete`. -/
def Store.Delete (s : Store) (key : String) : Store :=
  { s with values := kvDelete s.values key }

/-- The method `Store.Save`: flushes the values to the backing storage unless the
storage fails, and returns the error of the storage. -/
def Store.Save (s : Store) : Store × Option GoError :=
  match s.saveErr with
  | none => ({ s with persisted := s.values }, none)
  | some e => (s, some e)

/-- One call on a session handle. -/
inductive SessionCall where
  | get (key : String)
  | set (key : String) (v : Value)
  | delete (key : String)
  | save
deriving DecidableEq, Repr

/-- A `session.Manager`: `Start` answers a session handle or an error.  What
`Start` itself does to the response and the request (a session cookie, a form it
parses to find the session id) is not tracked: the writer and the request of
the gate stand for the two as `Start` leaves them, and the response writer
records what the gate writes. -/
structure Manager where
  Start : ResponseWriter → Request → Except GoError Store

/-- The session manager as a later request of the same browser finds it: `Start`
opens a handle on the values that are in the backing storage, whatever an
earlier handle held in memory.  `e` is what `Save` answers on the new handle. -/
def Manager.over (stored : List (String × Value)) (e : Option GoError) : Manager :=
  { Start := fun _ _ => .ok { values := stored, persisted := stored, saveErr := e } }

/-! ## The package `oauth` -/

/-- The struct `models.Client`, the implementation of `oauth2.ClientInfo` that the
package registers. -/
structure Client where
  ID : String
  Secret : String
  Domain : String
  UserID : String
deriving DecidableEq, Repr

/-- The struct `store.ClientStore`: a map from client id to client. -/
structure ClientStore where
  data : List (String × Client)
deriving DecidableEq, Repr

/-- The constructor `store.NewClientStore()`: an empty registry. -/
def ClientStore.New : ClientStore :=
  { data := [] }

/-- The method `ClientStore.Set`. -/
def ClientStore.Set (cs : ClientStore) (id : String) (cli : Client) : ClientStore :=
  { data := kvSet cs.data id cli }

/-- The method `ClientStore.GetByID`: the client under the id, or the error
`not found`. -/
def ClientStore.GetByID (cs : ClientStore) (id : String) : Except GoError Client :=
  match kvGet cs.data id with
  | some c => .ok c
  | none => .error { msg := "not found" }

/-- The kinds of artifact a token record stands for. -/
inductive TokenKind where
  | code
  | access
  | refresh
deriving DecidableEq, Repr

/-- Modelled from the spec: the TokenRecord of the data model, which the imported
token store holds and this package only passes on.  Times are in nanoseconds. -/
structure TokenRecord where
  value : String
  clientID : String
  userID : String
  scope : String
  kind : TokenKind
  issuedAt : Int
  expiresAt : Int
deriving DecidableEq, Repr

/-- The struct `Oauth2Service`. -/
structure Oauth2Service where
  SessionManager : Manager
  TokenStore : List TokenRecord
  ClientStore : ClientStore

/-- The service as a later request of the same browser finds it: the same stores,
and a session manager over what the backing storage of the session holds. -/
def Oauth2Service.reopened (service : Oauth2Service) (stored : List (String × Value))
    (e : Option GoError) : Oauth2Service :=
  { service with SessionManager := Manager.over stored e }

/-- How a call of the gate ends: it returns `(userID, err)` or it panics. -/
inductive Outcome where
  | returned (userID : String) (err : Option GoError)
  | panicked
deriving DecidableEq, Repr

/-- Everything a call of the gate leaves behind: the response writer, the request,
the session handle (`none` when `Start` failed), the calls made on it in order,
and the outcome. -/
structure GateState where
  w : ResponseWriter
  r : Request
  session : Option Store
  calls : List SessionCall
  result : Outcome
deriving DecidableEq, Repr

/-- The function returned by `userAuthorization(service)`. -/
def userAuthorization (service : Oauth2Service) (w : ResponseWriter) (r : Request) : GateState :=
  match service.SessionManager.Start w r with
  | .error err =>
    { w := w, r := r, session := none, calls := [], result := .returned "" (some err) }
  | .ok sessionStore =>
    match sessionStore.Get "LoggedInUserID" with
    | none =>
      let r1 := if r.Form = none then r.ParseForm else r
      let encoded := Values.Encode (r1.Form.getD [])
      let s1 := sessionStore.Set "ReturnUri" (.str encoded)
      let s2 := s1.Save.1
      let w1 := w.HeaderSet "Location" "/login"
      let w2 := w1.WriteHeader StatusFound
      { w := w2, r := r1, session := some s2,
        calls := [.get "LoggedInUserID", .set "ReturnUri" (.str encoded), .save],
        result := .returned "" none }
    | some uid =>
      match uid with
      | .str userID =>
        let s1 := sessionStore.Delete "LoggedInUserID"
        let s2 := s1.Save.1
        { w := w, r := r, session := some s2,
          calls := [.get "LoggedInUserID", .delete "LoggedInUserID", .save],
          result := .returned userID none }
      | _ =>
        { w := w, r := r, session := some sessionStore,
          calls := [.get "LoggedInUserID"], result := .panicked }

/-- The variable `ClientsConfig`: the one client registered by default. -/
def ClientsConfig : List (String × Client) :=
  [("123456", { ID := "123456", Secret := "12345678", Domain := "http://localhost:9094",
                UserID := "" })]

/-- The function `NewClientStore`.  The argument lists the entries of the Go map in
the order the `range` loop visits them. -/
def NewClientStore (config : List (String × Client)) : ClientStore :=
  config.foldl (fun clientStore kv => clientStore.Set kv.1 kv.2) ClientStore.New

/-! ### Durations of package `time`, in nanoseconds -/

/-- The constant `time.Nanosecond`. -/
def Nanosecond : Int := 1

/-- The constant `time.Microsecond`. -/
def Microsecond : Int := 1000 * Nanosecond

/-- The constant `time.Millisecond`. -/
def Millisecond : Int := 1000 * Microsecond

/-- The constant `time.Second`. -/
def Second : Int := 1000 * Millisecond

/-- The constant `time.Minute`. -/
def Minute : Int := 60 * Second

/-- The constant `time.Hour`. -/
def Hour : Int := 60 * Minute

/-- The struct `manage.Config`: the lifetimes of a grant type. -/
structure ManageConfig where
  AccessTokenExp : Int
  RefreshTokenExp : Int
  IsGenerateRefresh : Bool
deriving DecidableEq, Repr

/-- The struct `manage.Manager`, reduced to what `NewOauthServer` sets: the
configuration of the authorization-code grant (`none` until it is set) and the
two storages (`none` until they are mapped). -/
structure OauthManager where
  authorizeCodeTokenCfg : Option ManageConfig
  tokenStorage : Option (List TokenRecord)
  clientStorage : Option ClientStore
deriving DecidableEq, Repr

/-- The constructor `manage.NewDefaultManager()`. -/
def NewDefaultManager : OauthManager :=
  { authorizeCodeTokenCfg := none, tokenStorage := none, clientStorage := none }

/-- The method `Manager.SetAuthorizeCodeTokenCfg`. -/
def OauthManager.SetAuthorizeCodeTokenCfg (m : OauthManager) (cfg : ManageConfig) : OauthManager :=
  { m with authorizeCodeTokenCfg := some cfg }

/-- The method `Manager.MapTokenStorage`. -/
def OauthManager.MapTokenStorage (m : OauthManager) (stor : List TokenRecord) : OauthManager :=
  { m with tokenStorage := some stor }

/-- The method `Manager.MapClientStorage`. -/
def OauthManager.MapClientStorage (m : OauthManager) (stor : ClientStore) : OauthManager :=
  { m with clientStorage := some stor }

/-- The struct `server.Server`: its manager and its user-authorization handler. -/
structure Server where
  Manager : OauthManager
  UserAuthorizationHandler : ResponseWriter → Request → GateState

/-- The struct `oauth2Server`, the implementation of the interface `OauthServer`: it
embeds the server. -/
structure oauth2Server where
  Server : Server

/-- The function `NewOauthServerWithServer`. -/
def NewOauthServerWithServer (srv : Server) : oauth2Server :=
  { Server := srv }

/-- The struct `OAuth`, reduced to its server. -/
structure OAuth where
  OauthServer : oauth2Server

/-- The function `NewOauthServer`.  The two error handlers it installs only log and
are left out. -/
def NewOauthServer (oauth2Service : Oauth2Service) : oauth2Server :=
  let manager := NewDefaultManager.SetAuthorizeCodeTokenCfg
    { AccessTokenExp := Hour * 24 * 7,
      RefreshTokenExp := Hour * 24 * 14,
      IsGenerateRefresh := true }
  let manager := manager.MapTokenStorage oauth2Service.TokenStore
  let manager := manager.MapClientStorage oauth2Service.ClientStore
  let server : Server :=
    { Manager := manager, UserAuthorizationHandler := userAuthorization oauth2Service }
  NewOauthServerWithServer server

/-- The function `New`, as far as the server goes: the service over the given
session manager and token store with the registry of `ClientsConfig`.  The
token store stands for the Redis store the source opens. -/
def New (session : Manager) (tokenStore : List TokenRecord) : OAuth :=
  let oauth2Service : Oauth2Service :=
    { TokenStore := tokenStore,
      ClientStore := NewClientStore ClientsConfig,
      SessionManager := session }
  let oauthServer := NewOauthServer oauth2Service
  { OauthServer := oauthServer }

/-! ## The Engine, from the specification -/

/-- Modelled from the spec: the access token the Engine issues at time `issuedAt`
under a grant configuration; the issuing code is the imported server library.
Its expiry is the issue time plus the access-token lifetime. -/
def issueAccess (cfg : ManageConfig) (issuedAt : Int) (value clientID userID scope : String) :
    TokenRecord :=
  { value := value, clientID := clientID, userID := userID, scope := scope, kind := .access,
    issuedAt := issuedAt, expiresAt := issuedAt + cfg.AccessTokenExp }

/-- Modelled from the spec: the refresh token the Engine issues at time `issuedAt`,
when the configuration asks for one; the issuing code is the imported server
library.  Its expiry is the issue time plus the refresh-token lifetime. -/
def issueRefresh (cfg : ManageConfig) (issuedAt : Int) (value clientID userID scope : String) :
    Option TokenRecord :=
  if cfg.IsGenerateRefresh then
    some { value := value, clientID := clientID, userID := userID, scope := scope,
           kind := .refresh, issuedAt := issuedAt, expiresAt := issuedAt + cfg.RefreshTokenExp }
  else none

/-- Modelled from the spec: the `expires_in` of the token response, the access-token
lifetime in seconds; the response is written by the imported server library. -/
def expiresIn (cfg : ManageConfig) : Int :=
  cfg.AccessTokenExp / Second

/-- Modelled from the spec: the answers of the Engine's authorize operation. -/
inductive AuthorizeResult where
  | redirectWithCode (location : String)
  | redirectToLogin
  | protocolError (code : String)
  | internalError
  | panicked
deriving DecidableEq, Repr

/-- Modelled from the spec: the authorize operation of the Engine, which is the
imported server library and not code of this package.  It validates the client
id and the redirect URI against the registry, then asks the user-authorization
handler, and issues a code only when the handler resolved a user id.  `allowed`
is the comparison of a redirect URI with the registered domain, `fresh` the
newly generated code value; the result is the answer and the token store. -/
def HandleAuthorizeRequest (server : oauth2Server) (allowed : String → String → Bool)
    (codeTTL now : Int) (fresh : String)
    (client_id redirect_uri scope : String) (w : ResponseWriter) (r : Request) :
    AuthorizeResult × List TokenRecord :=
  let srv := server.Server
  let tokens := srv.Manager.tokenStorage.getD []
  match (srv.Manager.clientStorage.getD ClientStore.New).GetByID client_id with
  | .error _ => (.protocolError "invalid_client", tokens)
  | .ok cli =>
    if allowed cli.Domain redirect_uri then
      match (srv.UserAuthorizationHandler w r).result with
      | .panicked => (.panicked, tokens)
      | .returned _ (some _) => (.internalError, tokens)
      | .returned userID none =>
        if userID = "" then (.redirectToLogin, tokens)
        else
          (.redirectWithCode (redirect_uri ++ "?code=" ++ fresh),
           { value := fresh, clientID := client_id, userID := userID, scope := scope,
             kind := .code, issuedAt := now, expiresAt := now + codeTTL } :: tokens)
    else (.protocolError "invalid_redirect_uri", tokens)

/-- The parameters the gate reads from a request: `r.Form`, or what `ParseForm`
fills in when `r.Form` is nil. -/
def Request.parameters (r : Request) : Values :=
  match r.Form with
  | some form => form
  | none => r.wire

/-! ## Sample inputs -/

/-- A session manager whose `Start` opens the given session. -/
def managerOf (s : Store) : Manager :=
  { Start := fun _ _ => .ok s }

/-- A session manager whose `Start` fails with the given error. -/
def failingManager (e : GoError) : Manager :=
  { Start := fun _ _ => .error e }

/-- The service that `New` builds over a session manager, with an empty token store. -/
def serviceOf (m : Manager) : Oauth2Service :=
  { SessionManager := m, TokenStore := [], ClientStore := NewClientStore ClientsConfig }

/-- A response to which nothing has been written. -/
def freshWriter : ResponseWriter :=
  { header := [], status := none }

/-- An authorize request of the default client whose form has not been parsed. -/
def authorizeRequest : Request :=
  { URL := "/authorize?client_id=123456&response_type=code",
    wire := [("client_id", ["123456"]), ("response_type", ["code"])],
    Form := none }

/-- A session of a browser that has not logged in; it remembers a language. -/
def anonymousSession : Store :=
  { values := [("lang", .str "en")], persisted := [("lang", .str "en")], saveErr := none }

/-- A session after the login of user `u1`, with the return URI of an earlier
redirect still in it. -/
def loggedInSession : Store :=
  { values := [("LoggedInUserID", .str "u1"), ("ReturnUri", .str "client_id=123456")],
    persisted := [("LoggedInUserID", .str "u1"), ("ReturnUri", .str "client_id=123456")],
    saveErr := none }

/-- The session of `loggedInSession` on a storage that refuses to save. -/
def unsavableSession : Store :=
  { loggedInSession with saveErr := some { msg := "storage down" } }

/-- A session whose `LoggedInUserID` is a number, not a string. -/
def numericSession : Store :=
  { values := [("LoggedInUserID", .int 7)], persisted := [("LoggedInUserID", .int 7)],
    saveErr := none }

/-- The session of `anonymousSession` on a storage that refuses to save. -/
def unsavableAnonymousSession : Store :=
  { anonymousSession with saveErr := some { msg := "storage down" } }

/-- A comparison of a redirect URI with a registered domain: the two are equal. -/
def sameDomain (domain uri : String) : Bool :=
  decide (uri = domain)

/-- A configuration map of two clients. -/
def twoClients : List (String × Client) :=
  [("alpha", { ID := "alpha", Secret := "s1", Domain := "http://a.example", UserID := "" }),
   ("beta", { ID := "beta", Secret := "s2", Domain := "http://b.example", UserID := "" })]

/-! ## Lemmas on maps and on the session handle -/

theorem kvGet_kvDelete_same {α : Type} (m : List (String × α)) (key : String) :
    kvGet (kvDelete m key) key = none := by
  induction m with
  | nil => rfl
  | cons p rest ih =>
    obtain ⟨k, v⟩ := p
    by_cases h : k = key
    · simpa [kvDelete, h] using ih
    · simpa [kvDelete, h, kvGet] using ih

theorem kvGet_kvDelete_other {α : Type} (m : List (String × α)) (key other : String)
    (hne : other ≠ key) : kvGet (kvDelete m key) other = kvGet m other := by
  induction m with
  | nil => rfl
  | cons p rest ih =>
    obtain ⟨k, v⟩ := p
    unfold kvDelete at ih ⊢
    by_cases h : k = key
    · have hk : ¬ k = other := fun hko => hne (hko ▸ h)
      rw [List.filter_cons_of_neg (by simp [h]), ih]
      simp [kvGet, hk]
    · rw [List.filter_cons_of_pos (by simp [h])]
      by_cases hk : k = other
      · simp [kvGet, hk]
      · simp only [kvGet, hk, if_false]
        exact ih

theorem kvGet_kvSet_same {α : Type} (m : List (String × α)) (key : String) (v : α) :
    kvGet (kvSet m key v) key = some v := by
  simp [kvSet, kvGet]

theorem kvGet_kvSet_other {α : Type} (m : List (String × α)) (key other : String) (v : α)
    (hne : other ≠ key) : kvGet (kvSet m key v) other = kvGet m other := by
  have hk : key ≠ other := fun h => hne h.symm
  simp [kvSet, kvGet, hk, kvGet_kvDelete_other m key other hne]

theorem Store.Save_values (s : Store) : s.Save.1.values = s.values := by
  unfold Store.Save
  cases s.saveErr <;> rfl

theorem Store.Save_persisted_ok (s : Store) (h : s.saveErr = none) :
    s.Save.1.persisted = s.values := by
  unfold Store.Save
  rw [h]

theorem Store.Save_persisted_fail (s : Store) (e : GoError) (h : s.saveErr = some e) :
    s.Save.1.persisted = s.persisted := by
  unfold Store.Save
  rw [h]

theorem Store.Save_get (s : Store) (key : String) : s.Save.1.Get key = s.Get key := by
  unfold Store.Get
  rw [Store.Save_values]

/-! ## The four ways through the gate -/

theorem Request.parsed_when_nil (r : Request) :
    (if r.Form = none then r.ParseForm else r).Form.getD [] = r.parameters := by
  unfold Request.ParseForm Request.parameters
  cases h : r.Form <;> simp [h]

theorem userAuthorization_start_error (service : Oauth2Service) (w : ResponseWriter)
    (r : Request) (e : GoError) (hstart : service.SessionManager.Start w r = .error e) :
    userAuthorization service w r =
      { w := w, r := r, session := none, calls := [], result := .returned "" (some e) } := by
  unfold userAuthorization
  rw [hstart]

theorem userAuthorization_absent (service : Oauth2Service) (w : ResponseWriter)
    (r : Request) (s : Store) (hstart : service.SessionManager.Start w r = .ok s)
    (habsent : s.Get "LoggedInUserID" = none) :
    userAuthorization service w r =
      { w := (w.HeaderSet "Location" "/login").WriteHeader StatusFound,
        r := if r.Form = none then r.ParseForm else r,
        session := some (s.Set "ReturnUri" (.str (Values.Encode r.parameters))).Save.1,
        calls := [.get "LoggedInUserID",
                  .set "ReturnUri" (.str (Values.Encode r.parameters)), .save],
        result := .returned "" none } := by
  unfold userAuthorization
  rw [hstart]
  simp only [habsent, Request.parsed_when_nil]

theorem userAuthorization_present (service : Oauth2Service) (w : ResponseWriter)
    (r : Request) (s : Store) (u : String)
    (hstart : service.SessionManager.Start w r = .ok s)
    (hpresent : s.Get "LoggedInUserID" = some (.str u)) :
    userAuthorization service w r =
      { w := w, r := r, session := some (s.Delete "LoggedInUserID").Save.1,
        calls := [.get "LoggedInUserID", .delete "LoggedInUserID", .save],
        result := .returned u none } := by
  unfold userAuthorization
  rw [hstart]
  simp only [hpresent]

theorem userAuthorization_not_string (service : Oauth2Service) (w : ResponseWriter)
    (r : Request) (s : Store) (v : Value)
    (hstart : service.SessionManager.Start w r = .ok s)
    (hpresent : s.Get "LoggedInUserID" = some v) (hv : ∀ u, v ≠ .str u) :
    userAuthorization service w r =
      { w := w, r := r, session := some s, calls := [.get "LoggedInUserID"],
        result := .panicked } := by
  unfold userAuthorization
  rw [hstart]
  cases v with
  | str u => exact absurd rfl (hv u)
  | int n => simp only [hpresent]
  | bool b => simp only [hpresent]
  | nil => simp only [hpresent]

theorem ResponseWriter.redirect_location (w : ResponseWriter) (target : String) (code : Nat) :
    Header.Get ((w.HeaderSet "Location" target).WriteHeader code).header "Location" = target := by
  unfold ResponseWriter.WriteHeader ResponseWriter.HeaderSet
  cases w.status <;> simp [Header.Get, Header.Set, kvGet_kvSet_same]

theorem ResponseWriter.redirect_status (w : ResponseWriter) (target : String) (code : Nat)
    (hfresh : w.status = none) :
    ((w.HeaderSet "Location" target).WriteHeader code).status = some code := by
  unfold ResponseWriter.WriteHeader ResponseWriter.HeaderSet
  simp [hfresh]

/-! ## The claims on the gate -/

/-- C1: when the session starts and holds no `LoggedInUserID`, the gate stores the
URL-encoded parameters of the request (the form, parsed first when it is nil)
under `ReturnUri`, saves the session, answers 302 with `Location: /login` on a
response that has not been sent yet, and returns the empty user id with a nil
error. -/
theorem userAuthorization_absent_redirects_to_login (service : Oauth2Service)
    (w : ResponseWriter) (r : Request) (s : Store)
    (hstart : service.SessionManager.Start w r = .ok s)
    (habsent : s.Get "LoggedInUserID" = none)
    (hfresh : w.status = none) :
    ∃ s2, (userAuthorization service w r).session = some s2 ∧
      s2.values = kvSet s.values "ReturnUri" (.str (Values.Encode r.parameters)) ∧
      s2.Get "ReturnUri" = some (.str (Values.Encode r.parameters)) ∧
      (userAuthorization service w r).calls =
        [.get "LoggedInUserID",
         .set "ReturnUri" (.str (Values.Encode r.parameters)), .save] ∧
      (s.saveErr = none → s2.persisted = s2.values) ∧
      (userAuthorization service w r).r.Form = some r.parameters ∧
      Header.Get (userAuthorization service w r).w.header "Location" = "/login" ∧
      (userAuthorization service w r).w.status = some 302 ∧
      (userAuthorization service w r).result = .returned "" none := by
  rw [userAuthorization_absent service w r s hstart habsent]
  refine ⟨_, rfl, ?_, ?_, rfl, ?_, ?_, ?_, ?_, rfl⟩
  · rw [Store.Save_values]; rfl
  · rw [Store.Save_get]; exact kvGet_kvSet_same _ _ _
  · intro hsave
    rw [Store.Save_values]
    exact Store.Save_persisted_ok _ hsave
  · show (if r.Form = none then r.ParseForm else r).Form = some r.parameters
    unfold Request.ParseForm Request.parameters
    cases h : r.Form <;> simp [h]
  · exact ResponseWriter.redirect_location w "/login" StatusFound
  · exact ResponseWriter.redirect_status w "/login" StatusFound hfresh

/-- C2: when the session starts and holds the string `u` under `LoggedInUserID`, the
gate returns exactly `u` with a nil error, removes `LoggedInUserID`, saves the
session, and leaves the response as it was: no header and no status code is
written. -/
theorem userAuthorization_present_returns_user (service : Oauth2Service)
    (w : ResponseWriter) (r : Request) (s : Store) (u : String)
    (hstart : service.SessionManager.Start w r = .ok s)
    (hpresent : s.Get "LoggedInUserID" = some (.str u)) :
    ∃ s2, (userAuthorization service w r).session = some s2 ∧
      (userAuthorization service w r).result = .returned u none ∧
      s2.values = kvDelete s.values "LoggedInUserID" ∧
      s2.Get "LoggedInUserID" = none ∧
      (userAuthorization service w r).calls =
        [.get "LoggedInUserID", .delete "LoggedInUserID", .save] ∧
      (s.saveErr = none → s2.persisted = s2.values) ∧
      (userAuthorization service w r).w = w := by
  rw [userAuthorization_present service w r s u hstart hpresent]
  refine ⟨_, rfl, rfl, ?_, ?_, rfl, ?_, rfl⟩
  · rw [Store.Save_values]; rfl
  · rw [Store.Save_get]; exact kvGet_kvDelete_same _ _
  · intro hsave
    rw [Store.Save_values]
    exact Store.Save_persisted_ok _ hsave

/-- C6: when `Start` returns the error `e`, the gate returns the empty user id
together with exactly `e`, makes no call on a session (there is no handle), and
leaves the response and the request as they were. -/
theorem userAuthorization_start_fails_closed (service : Oauth2Service)
    (w : ResponseWriter) (r : Request) (e : GoError)
    (hstart : service.SessionManager.Start w r = .error e) :
    (userAuthorization service w r).result = .returned "" (some e) ∧
      (userAuthorization service w r).calls = [] ∧
      (userAuthorization service w r).session = none ∧
      (userAuthorization service w r).w = w ∧
      (userAuthorization service w r).r = r := by
  rw [userAuthorization_start_error service w r e hstart]
  exact ⟨rfl, rfl, rfl, rfl, rfl⟩

/-- C3, as the code has it: the login flag is used once when the session is saved.
For a session that holds the string `u` under `LoggedInUserID` and whose `Save`
succeeds, the call of the gate returns `u` and the stored session no longer
has the flag; a second call with the same request, on the session as a later
`Start` opens it from the storage and on a response not sent yet, returns the
empty user id and answers 302 with `Location: /login`. -/
theorem userAuthorization_login_flag_single_use_when_saved (service : Oauth2Service)
    (w w2 : ResponseWriter) (r : Request) (s : Store) (u : String) (e2 : Option GoError)
    (hstart : service.SessionManager.Start w r = .ok s)
    (hpresent : s.Get "LoggedInUserID" = some (.str u))
    (hsaved : s.saveErr = none)
    (hfresh : w2.status = none) :
    ∃ s1, (userAuthorization service w r).session = some s1 ∧
      (userAuthorization service w r).result = .returned u none ∧
      kvGet s1.persisted "LoggedInUserID" = none ∧
      (userAuthorization (service.reopened s1.persisted e2) w2 r).result =
        .returned "" none ∧
      Header.Get (userAuthorization (service.reopened s1.persisted e2) w2 r).w.header
        "Location" = "/login" ∧
      (userAuthorization (service.reopened s1.persisted e2) w2 r).w.status = some 302 := by
  have hstored : (s.Delete "LoggedInUserID").Save.1.persisted =
      kvDelete s.values "LoggedInUserID" :=
    Store.Save_persisted_ok (s.Delete "LoggedInUserID") hsaved
  have hgone : kvGet (s.Delete "LoggedInUserID").Save.1.persisted "LoggedInUserID" = none := by
    rw [hstored]
    exact kvGet_kvDelete_same _ _
  have hsecond := userAuthorization_absent
    (service.reopened (s.Delete "LoggedInUserID").Save.1.persisted e2) w2 r
    { values := (s.Delete "LoggedInUserID").Save.1.persisted,
      persisted := (s.Delete "LoggedInUserID").Save.1.persisted, saveErr := e2 } rfl hgone
  rw [userAuthorization_present service w r s u hstart hpresent]
  refine ⟨_, rfl, rfl, hgone, ?_, ?_, ?_⟩
  · rw [hsecond]
  · rw [hsecond]
    exact ResponseWriter.redirect_location w2 "/login" StatusFound
  · rw [hsecond]
    exact ResponseWriter.redirect_status w2 "/login" StatusFound hfresh

/-- C4, as the code has it: the login round trip when the session is saved.  Without
`LoggedInUserID`, and with a `Save` that succeeds, the gate redirects to
`/login` and the stored session holds the URL-encoded parameters under
`ReturnUri`.  When the login then stores a non-empty string `u` under
`LoggedInUserID` and a request of the same parameters comes in, the gate, on
the session as `Start` opens it from the storage, returns `u` with a nil error,
writes nothing to the new response and keeps `ReturnUri`; the authorize
operation of the specification, for a registered client and an allowed
redirect URI, then issues a code for `u`. -/
theorem userAuthorization_login_round_trip_when_saved (service : Oauth2Service)
    (w w2 : ResponseWriter) (r r2 : Request) (s : Store) (u : String) (e2 : Option GoError)
    (allowed : String → String → Bool) (codeTTL now : Int)
    (fresh client_id redirect_uri scope : String) (cli : Client)
    (hstart : service.SessionManager.Start w r = .ok s)
    (habsent : s.Get "LoggedInUserID" = none)
    (hsaved : s.saveErr = none)
    (hfresh : w.status = none)
    (hsame : r2.parameters = r.parameters)
    (hu : u ≠ "")
    (hclient : service.ClientStore.GetByID client_id = .ok cli)
    (hallowed : allowed cli.Domain redirect_uri = true) :
    ∃ s1, (userAuthorization service w r).session = some s1 ∧
      (userAuthorization service w r).result = .returned "" none ∧
      Header.Get (userAuthorization service w r).w.header "Location" = "/login" ∧
      (userAuthorization service w r).w.status = some 302 ∧
      kvGet s1.persisted "ReturnUri" = some (.str (Values.Encode r.parameters)) ∧
      (userAuthorization
        (service.reopened (kvSet s1.persisted "LoggedInUserID" (.str u)) e2) w2 r2).result =
        .returned u none ∧
      (userAuthorization
        (service.reopened (kvSet s1.persisted "LoggedInUserID" (.str u)) e2) w2 r2).w = w2 ∧
      (∃ s3, (userAuthorization
          (service.reopened (kvSet s1.persisted "LoggedInUserID" (.str u)) e2) w2 r2).session =
          some s3 ∧
        s3.Get "LoggedInUserID" = none ∧
        s3.Get "ReturnUri" = some (.str (Values.Encode r2.parameters))) ∧
      HandleAuthorizeRequest
        (NewOauthServer (service.reopened (kvSet s1.persisted "LoggedInUserID" (.str u)) e2))
        allowed codeTTL now fresh client_id redirect_uri scope w2 r2 =
        (.redirectWithCode (redirect_uri ++ "?code=" ++ fresh),
         { value := fresh, clientID := client_id, userID := u, scope := scope, kind := .code,
           issuedAt := now, expiresAt := now + codeTTL } :: service.TokenStore) := by
  have hstored : (s.Set "ReturnUri" (.str (Values.Encode r.parameters))).Save.1.persisted =
      kvSet s.values "ReturnUri" (.str (Values.Encode r.parameters)) :=
    Store.Save_persisted_ok (s.Set "ReturnUri" (.str (Values.Encode r.parameters))) hsaved
  have hlogin : kvGet (kvSet (s.Set "ReturnUri"
      (.str (Values.Encode r.parameters))).Save.1.persisted "LoggedInUserID" (.str u))
      "LoggedInUserID" = some (.str u) := kvGet_kvSet_same _ _ _
  have hsecond := userAuthorization_present
    (service.reopened (kvSet (s.Set "ReturnUri"
      (.str (Values.Encode r.parameters))).Save.1.persisted "LoggedInUserID" (.str u)) e2)
    w2 r2
    { values := kvSet (s.Set "ReturnUri"
        (.str (Values.Encode r.parameters))).Save.1.persisted "LoggedInUserID" (.str u),
      persisted := kvSet (s.Set "ReturnUri"
        (.str (Values.Encode r.parameters))).Save.1.persisted "LoggedInUserID" (.str u),
      saveErr := e2 } u rfl hlogin
  rw [userAuthorization_absent service w r s hstart habsent]
  refine ⟨_, rfl, rfl, ResponseWriter.redirect_location w "/login" StatusFound,
    ResponseWriter.redirect_status w "/login" StatusFound hfresh, ?_, ?_, ?_, ?_, ?_⟩
  · rw [hstored]
    exact kvGet_kvSet_same _ _ _
  · rw [hsecond]
  · rw [hsecond]
  · rw [hsecond]
    refine ⟨_, rfl, ?_, ?_⟩
    · rw [Store.Save_get]
      exact kvGet_kvDelete_same _ _
    · rw [Store.Save_get, hsame]
      show kvGet (kvDelete (kvSet (s.Set "ReturnUri"
        (.str (Values.Encode r.parameters))).Save.1.persisted "LoggedInUserID" (.str u))
        "LoggedInUserID") "ReturnUri" = some (.str (Values.Encode r.parameters))
      rw [kvGet_kvDelete_other _ _ _ (by decide), kvGet_kvSet_other _ _ _ _ (by decide),
        hstored]
      exact kvGet_kvSet_same _ _ _
  · have hstore : (service.reopened (kvSet (s.Set "ReturnUri"
        (.str (Values.Encode r.parameters))).Save.1.persisted "LoggedInUserID" (.str u))
        e2).ClientStore.GetByID client_id = .ok cli := hclient
    simp only [HandleAuthorizeRequest, NewOauthServer, NewOauthServerWithServer,
      OauthManager.MapClientStorage, OauthManager.MapTokenStorage,
      OauthManager.SetAuthorizeCodeTokenCfg, NewDefaultManager, Option.getD_some, hstore,
      hallowed, hsecond, if_true, hu, if_false]
    rfl

/-- C5, as the code has it: an error of `Save` is discarded.  When saving fails the
gate still returns a non-empty user id `u` with a nil error exactly when the
session holds the string `u` under `LoggedInUserID`, as it does when saving
succeeds; in every other case it grants nothing.  The backing storage keeps its
previous content. -/
theorem userAuthorization_save_error_discarded (service : Oauth2Service)
    (w : ResponseWriter) (r : Request) (s : Store) (e : GoError)
    (hstart : service.SessionManager.Start w r = .ok s)
    (hsave : s.saveErr = some e) :
    (∀ u, u ≠ "" → ((userAuthorization service w r).result = .returned u none ↔
        s.Get "LoggedInUserID" = some (.str u))) ∧
      ∃ s2, (userAuthorization service w r).session = some s2 ∧
        s2.persisted = s.persisted := by
  cases hget : s.Get "LoggedInUserID" with
  | none =>
    rw [userAuthorization_absent service w r s hstart hget]
    refine ⟨fun u hu => ⟨fun h => ?_, fun h => ?_⟩, _, rfl, ?_⟩
    · exact absurd (Outcome.returned.inj h).1.symm hu
    · exact absurd h (by simp)
    · exact Store.Save_persisted_fail _ e hsave
  | some v =>
    cases v with
    | str u0 =>
      rw [userAuthorization_present service w r s u0 hstart hget]
      refine ⟨fun u _ => ⟨fun h => ?_, fun h => ?_⟩, _, rfl, ?_⟩
      · rw [(Outcome.returned.inj h).1]
      · rw [Value.str.inj (Option.some.inj h)]
      · exact Store.Save_persisted_fail _ e hsave
    | int n =>
      rw [userAuthorization_not_string service w r s _ hstart hget (by simp)]
      exact ⟨fun u _ => ⟨fun h => Outcome.noConfusion h, fun h => by simp at h⟩, _, rfl, rfl⟩
    | bool b =>
      rw [userAuthorization_not_string service w r s _ hstart hget (by simp)]
      exact ⟨fun u _ => ⟨fun h => Outcome.noConfusion h, fun h => by simp at h⟩, _, rfl, rfl⟩
    | nil =>
      rw [userAuthorization_not_string service w r s _ hstart hget (by simp)]
      exact ⟨fun u _ => ⟨fun h => Outcome.noConfusion h, fun h => by simp at h⟩, _, rfl, rfl⟩

/-- C9: the session frame.  A call of the gate changes at most one key of the
session.  Without `LoggedInUserID` it writes `ReturnUri` and every other key
keeps its value; with `LoggedInUserID` every key other than `LoggedInUserID`,
a stored `ReturnUri` among them, keeps its value, and a string entry is
removed. -/
theorem userAuthorization_session_frame (service : Oauth2Service) (w : ResponseWriter)
    (r : Request) (s : Store)
    (hstart : service.SessionManager.Start w r = .ok s) :
    ∃ s2, (userAuthorization service w r).session = some s2 ∧
      (s.Get "LoggedInUserID" = none →
        s2.Get "ReturnUri" = some (.str (Values.Encode r.parameters)) ∧
        ∀ key, key ≠ "ReturnUri" → s2.Get key = s.Get key) ∧
      (∀ v, s.Get "LoggedInUserID" = some v →
        s2.Get "ReturnUri" = s.Get "ReturnUri" ∧
        ∀ key, key ≠ "LoggedInUserID" → s2.Get key = s.Get key) ∧
      (∀ u, s.Get "LoggedInUserID" = some (.str u) → s2.Get "LoggedInUserID" = none) := by
  have hdel : ∀ key, key ≠ "LoggedInUserID" →
      (s.Delete "LoggedInUserID").Save.1.Get key = s.Get key := by
    intro key hkey
    rw [Store.Save_get]
    exact kvGet_kvDelete_other _ _ _ hkey
  cases hget : s.Get "LoggedInUserID" with
  | none =>
    rw [userAuthorization_absent service w r s hstart hget]
    refine ⟨_, rfl, fun _ => ⟨?_, fun key hkey => ?_⟩, fun v hv => by simp at hv,
      fun u hu => by simp at hu⟩
    · rw [Store.Save_get]; exact kvGet_kvSet_same _ _ _
    · rw [Store.Save_get]; exact kvGet_kvSet_other _ _ _ _ hkey
  | some v =>
    cases v with
    | str u0 =>
      rw [userAuthorization_present service w r s u0 hstart hget]
      refine ⟨_, rfl, fun h => by simp at h, fun _ _ => ⟨hdel _ (by decide), hdel⟩,
        fun _ _ => ?_⟩
      rw [Store.Save_get]; exact kvGet_kvDelete_same _ _
    | int n =>
      rw [userAuthorization_not_string service w r s _ hstart hget (by simp)]
      exact ⟨_, rfl, fun h => by simp at h, fun _ _ => ⟨rfl, fun _ _ => rfl⟩,
        fun _ hu => by simp at hu⟩
    | bool b =>
      rw [userAuthorization_not_string service w r s _ hstart hget (by simp)]
      exact ⟨_, rfl, fun h => by simp at h, fun _ _ => ⟨rfl, fun _ _ => rfl⟩,
        fun _ hu => by simp at hu⟩
    | nil =>
      rw [userAuthorization_not_string service w r s _ hstart hget (by simp)]
      exact ⟨_, rfl, fun h => by simp at h, fun _ _ => ⟨rfl, fun _ _ => rfl⟩,
        fun _ hu => by simp at hu⟩

/-- C10: the type assertion.  The gate does not panic when every `LoggedInUserID`
entry of the session that `Start` opens is a string.  Whenever the entry is
present and not a string the assertion `uid.(string)` fails: the gate panics
after the one `Get`, so the entry is not deleted and no user id is returned;
`numericSession` is such a session. -/
theorem userAuthorization_type_assertion :
    (∀ (service : Oauth2Service) (w : ResponseWriter) (r : Request),
      (∀ s v, service.SessionManager.Start w r = .ok s →
        s.Get "LoggedInUserID" = some v → ∃ u, v = .str u) →
      (userAuthorization service w r).result ≠ .panicked) ∧
    (∀ (service : Oauth2Service) (w : ResponseWriter) (r : Request) (s : Store) (v : Value),
      service.SessionManager.Start w r = .ok s →
      s.Get "LoggedInUserID" = some v → (∀ u, v ≠ .str u) →
      (userAuthorization service w r).result = .panicked ∧
      (userAuthorization service w r).session = some s ∧
      (userAuthorization service w r).calls = [.get "LoggedInUserID"]) ∧
    (numericSession.Get "LoggedInUserID" = some (.int 7) ∧
      (userAuthorization (serviceOf (managerOf numericSession)) freshWriter
        authorizeRequest).result = .panicked) := by
  refine ⟨fun service w r hstr => ?_, fun service w r s v hstart hget hv => ?_, rfl, rfl⟩
  · cases hstart : service.SessionManager.Start w r with
    | error e =>
      rw [userAuthorization_start_error service w r e hstart]
      exact fun h => Outcome.noConfusion h
    | ok s =>
      cases hget : s.Get "LoggedInUserID" with
      | none =>
        rw [userAuthorization_absent service w r s hstart hget]
        exact fun h => Outcome.noConfusion h
      | some v =>
        obtain ⟨u, rfl⟩ := hstr s v hstart hget
        rw [userAuthorization_present service w r s u hstart hget]
        exact fun h => Outcome.noConfusion h
  · rw [userAuthorization_not_string service w r s v hstart hget hv]
    exact ⟨rfl, rfl, rfl⟩

/-! ## The client registry -/

theorem NewClientStore_fold_absent (order : List (String × Client)) (cs : ClientStore)
    (id : String) (habsent : id ∉ order.map Prod.fst) :
    kvGet (order.foldl (fun clientStore kv => clientStore.Set kv.1 kv.2) cs).data id =
      kvGet cs.data id := by
  induction order generalizing cs with
  | nil => rfl
  | cons p rest ih =>
    simp only [List.map_cons, List.mem_cons, not_or] at habsent
    rw [List.foldl_cons, ih _ habsent.2]
    exact kvGet_kvSet_other _ _ _ _ habsent.1

theorem NewClientStore_fold_present (order : List (String × Client)) (cs : ClientStore)
    (id : String) (c : Client) (hnodup : (order.map Prod.fst).Nodup)
    (hmem : (id, c) ∈ order) :
    kvGet (order.foldl (fun clientStore kv => clientStore.Set kv.1 kv.2) cs).data id =
      some c := by
  induction order generalizing cs with
  | nil => cases hmem
  | cons p rest ih =>
    simp only [List.map_cons, List.nodup_cons] at hnodup
    rw [List.foldl_cons]
    rcases List.mem_cons.mp hmem with hhead | htail
    · subst hhead
      rw [NewClientStore_fold_absent rest _ id hnodup.1]
      exact kvGet_kvSet_same _ _ _
    · exact ih _ hnodup.2 htail

/-- C7: the registry.  For a configuration map (distinct keys) visited by the loop
in any order, the registry that `NewClientStore` builds answers, for each id
of the map, the client registered under it, and `not found` for every other
id.  With the default `ClientsConfig`, `"123456"` resolves to secret
`"12345678"` and domain `"http://localhost:9094"`, every other id is not
found, and the authorize operation of the specification rejects a request
carrying it with `invalid_client` and leaves the token store as it was. -/
theorem NewClientStore_registry_lookup :
    (∀ (config order : List (String × Client)), (config.map Prod.fst).Nodup →
      order.Perm config →
      (∀ id c, (id, c) ∈ config → (NewClientStore order).GetByID id = .ok c) ∧
      (∀ id, id ∉ config.map Prod.fst →
        (NewClientStore order).GetByID id = .error { msg := "not found" })) ∧
    (NewClientStore ClientsConfig).GetByID "123456" =
      .ok { ID := "123456", Secret := "12345678", Domain := "http://localhost:9094",
            UserID := "" } ∧
    (∀ id, id ≠ "123456" →
      (NewClientStore ClientsConfig).GetByID id = .error { msg := "not found" }) ∧
    (∀ (session : Manager) (tokenStore : List TokenRecord) (allowed : String → String → Bool)
      (codeTTL now : Int) (fresh id redirect_uri scope : String) (w : ResponseWriter)
      (r : Request), id ≠ "123456" →
      HandleAuthorizeRequest (New session tokenStore).OauthServer allowed codeTTL now fresh id
        redirect_uri scope w r = (.protocolError "invalid_client", tokenStore)) := by
  have hother : ∀ id, id ≠ "123456" →
      (NewClientStore ClientsConfig).GetByID id = .error { msg := "not found" } := by
    intro id hid
    have hne : ¬ "123456" = id := fun h => hid h.symm
    simp [NewClientStore, ClientsConfig, ClientStore.GetByID, ClientStore.Set, ClientStore.New,
      kvSet, kvDelete, kvGet, hne]
  refine ⟨fun config order hnodup hperm => ⟨fun id c hmem => ?_, fun id habsent => ?_⟩,
    by rfl, hother, ?_⟩
  · have h := NewClientStore_fold_present order ClientStore.New id c
      ((hperm.map Prod.fst).nodup_iff.mpr hnodup) (hperm.mem_iff.mpr hmem)
    unfold NewClientStore ClientStore.GetByID
    rw [h]
  · have h := NewClientStore_fold_absent order ClientStore.New id
      (fun hin => habsent ((hperm.map Prod.fst).mem_iff.mp hin))
    unfold NewClientStore ClientStore.GetByID
    rw [h]
    rfl
  · intro session tokenStore allowed codeTTL now fresh id redirect_uri scope w r hid
    have h := hother id hid
    simp only [HandleAuthorizeRequest, New, NewOauthServer, NewOauthServerWithServer,
      OauthManager.MapClientStorage,
      OauthManager.MapTokenStorage, OauthManager.SetAuthorizeCodeTokenCfg, NewDefaultManager,
      Option.getD_some, h]

/-! ## The grant configuration -/

/-- C8: the token lifetimes.  The authorization-code configuration that
`NewOauthServer` installs has an access-token lifetime of exactly 7 days, which
is 604800 seconds and the `expires_in` of the specification, and a
refresh-token lifetime of exactly 14 days, 1209600 seconds, with refresh-token
generation enabled; both durations fit a 64-bit `time.Duration`.  So a token
issued at time `T` expires at `T + 7d` (access) and `T + 14d` (refresh). -/
theorem NewOauthServer_token_lifetimes (oauth2Service : Oauth2Service) :
    ∃ cfg, (NewOauthServer oauth2Service).Server.Manager.authorizeCodeTokenCfg = some cfg ∧
      cfg.AccessTokenExp = 7 * (24 * Hour) ∧
      cfg.AccessTokenExp = 604800 * Second ∧
      expiresIn cfg = 604800 ∧
      cfg.RefreshTokenExp = 14 * (24 * Hour) ∧
      cfg.RefreshTokenExp = 1209600 * Second ∧
      cfg.IsGenerateRefresh = true ∧
      cfg.AccessTokenExp < 2 ^ 63 ∧ cfg.RefreshTokenExp < 2 ^ 63 ∧
      ∀ (T : Int) (value clientID userID scope : String),
        (issueAccess cfg T value clientID userID scope).expiresAt = T + 7 * (24 * Hour) ∧
        ∃ rt, issueRefresh cfg T value clientID userID scope = some rt ∧
          rt.expiresAt = T + 14 * (24 * Hour) := by
  refine ⟨_, rfl, by decide, by decide, by decide, by decide, by decide, rfl, by decide,
    by decide, fun T value clientID userID scope => ⟨?_, _, rfl, ?_⟩⟩
  · show T + Hour * 24 * 7 = T + 7 * (24 * Hour)
    rw [show Hour * 24 * 7 = 7 * (24 * Hour) by decide]
  · show T + Hour * 24 * 14 = T + 14 * (24 * Hour)
    rw [show Hour * 24 * 14 = 14 * (24 * Hour) by decide]

/-! ## The claims at sample inputs -/

theorem userAuthorization_absent_redirects_to_login_witness :
    (serviceOf (managerOf anonymousSession)).SessionManager.Start freshWriter authorizeRequest =
        .ok anonymousSession ∧
      anonymousSession.Get "LoggedInUserID" = none ∧
      freshWriter.status = none ∧
      ∃ s2, (userAuthorization (serviceOf (managerOf anonymousSession)) freshWriter
          authorizeRequest).session = some s2 ∧
        s2.values = kvSet anonymousSession.values "ReturnUri"
          (.str (Values.Encode authorizeRequest.parameters)) ∧
        s2.Get "ReturnUri" = some (.str (Values.Encode authorizeRequest.parameters)) ∧
        (userAuthorization (serviceOf (managerOf anonymousSession)) freshWriter
          authorizeRequest).calls =
          [.get "LoggedInUserID",
           .set "ReturnUri" (.str (Values.Encode authorizeRequest.parameters)), .save] ∧
        (anonymousSession.saveErr = none → s2.persisted = s2.values) ∧
        (userAuthorization (serviceOf (managerOf anonymousSession)) freshWriter
          authorizeRequest).r.Form = some authorizeRequest.parameters ∧
        Header.Get (userAuthorization (serviceOf (managerOf anonymousSession)) freshWriter
          authorizeRequest).w.header "Location" = "/login" ∧
        (userAuthorization (serviceOf (managerOf anonymousSession)) freshWriter
          authorizeRequest).w.status = some 302 ∧
        (userAuthorization (serviceOf (managerOf anonymousSession)) freshWriter
          authorizeRequest).result = .returned "" none :=
  ⟨rfl, by decide, rfl,
    userAuthorization_absent_redirects_to_login (serviceOf (managerOf anonymousSession))
      freshWriter authorizeRequest anonymousSession rfl (by decide) rfl⟩

theorem userAuthorization_present_returns_user_witness :
    (serviceOf (managerOf loggedInSession)).SessionManager.Start freshWriter authorizeRequest =
        .ok loggedInSession ∧
      loggedInSession.Get "LoggedInUserID" = some (.str "u1") ∧
      ∃ s2, (userAuthorization (serviceOf (managerOf loggedInSession)) freshWriter
          authorizeRequest).session = some s2 ∧
        (userAuthorization (serviceOf (managerOf loggedInSession)) freshWriter
          authorizeRequest).result = .returned "u1" none ∧
        s2.values = kvDelete loggedInSession.values "LoggedInUserID" ∧
        s2.Get "LoggedInUserID" = none ∧
        (userAuthorization (serviceOf (managerOf loggedInSession)) freshWriter
          authorizeRequest).calls =
          [.get "LoggedInUserID", .delete "LoggedInUserID", .save] ∧
        (loggedInSession.saveErr = none → s2.persisted = s2.values) ∧
        (userAuthorization (serviceOf (managerOf loggedInSession)) freshWriter
          authorizeRequest).w = freshWriter :=
  ⟨rfl, by decide,
    userAuthorization_present_returns_user (serviceOf (managerOf loggedInSession))
      freshWriter authorizeRequest loggedInSession "u1" rfl (by decide)⟩

theorem userAuthorization_login_flag_single_use_when_saved_witness :
    (serviceOf (managerOf loggedInSession)).SessionManager.Start freshWriter authorizeRequest =
        .ok loggedInSession ∧
      loggedInSession.Get "LoggedInUserID" = some (.str "u1") ∧
      loggedInSession.saveErr = none ∧
      freshWriter.status = none ∧
      ∃ s1, (userAuthorization (serviceOf (managerOf loggedInSession)) freshWriter
          authorizeRequest).session = some s1 ∧
        (userAuthorization (serviceOf (managerOf loggedInSession)) freshWriter
          authorizeRequest).result = .returned "u1" none ∧
        kvGet s1.persisted "LoggedInUserID" = none ∧
        (userAuthorization ((serviceOf (managerOf loggedInSession)).reopened s1.persisted none)
          freshWriter authorizeRequest).result = .returned "" none ∧
        Header.Get (userAuthorization
          ((serviceOf (managerOf loggedInSession)).reopened s1.persisted none)
          freshWriter authorizeRequest).w.header "Location" = "/login" ∧
        (userAuthorization ((serviceOf (managerOf loggedInSession)).reopened s1.persisted none)
          freshWriter authorizeRequest).w.status = some 302 :=
  ⟨rfl, by decide, rfl, rfl,
    userAuthorization_login_flag_single_use_when_saved (serviceOf (managerOf loggedInSession))
      freshWriter freshWriter authorizeRequest loggedInSession "u1" none
      rfl (by decide) rfl rfl⟩

/-- C3, refuted as stated: on `unsavableSession`, whose storage answers every `Save`
with an error, the first call returns `u1` and the storage keeps the flag; the
second call with the same request, on the session as `Start` opens it from the
storage, returns `u1` again and writes no redirect. -/
theorem userAuthorization_login_flag_survives_failed_save :
    (serviceOf (managerOf unsavableSession)).SessionManager.Start freshWriter authorizeRequest =
        .ok unsavableSession ∧
      unsavableSession.Get "LoggedInUserID" = some (.str "u1") ∧
      (userAuthorization (serviceOf (managerOf unsavableSession)) freshWriter
        authorizeRequest).result = .returned "u1" none ∧
      (userAuthorization (serviceOf (managerOf unsavableSession)) freshWriter
        authorizeRequest).session.map (fun s1 => s1.persisted) =
        some [("LoggedInUserID", .str "u1"), ("ReturnUri", .str "client_id=123456")] ∧
      (userAuthorization ((serviceOf (managerOf unsavableSession)).reopened
        [("LoggedInUserID", .str "u1"), ("ReturnUri", .str "client_id=123456")] none)
        freshWriter authorizeRequest).result = .returned "u1" none ∧
      (userAuthorization ((serviceOf (managerOf unsavableSession)).reopened
        [("LoggedInUserID", .str "u1"), ("ReturnUri", .str "client_id=123456")] none)
        freshWriter authorizeRequest).w = freshWriter := by
  refine ⟨rfl, by decide, by decide, by decide, by decide, by decide⟩

theorem userAuthorization_login_round_trip_when_saved_witness :
    (serviceOf (managerOf anonymousSession)).SessionManager.Start freshWriter authorizeRequest =
        .ok anonymousSession ∧
      anonymousSession.Get "LoggedInUserID" = none ∧
      anonymousSession.saveErr = none ∧
      freshWriter.status = none ∧
      authorizeRequest.ParseForm.parameters = authorizeRequest.parameters ∧
      "u1" ≠ "" ∧
      (serviceOf (managerOf anonymousSession)).ClientStore.GetByID "123456" =
        .ok { ID := "123456", Secret := "12345678", Domain := "http://localhost:9094",
              UserID := "" } ∧
      sameDomain "http://localhost:9094" "http://localhost:9094" = true ∧
      ∃ s1, (userAuthorization (serviceOf (managerOf anonymousSession)) freshWriter
          authorizeRequest).session = some s1 ∧
        (userAuthorization (serviceOf (managerOf anonymousSession)) freshWriter
          authorizeRequest).result = .returned "" none ∧
        Header.Get (userAuthorization (serviceOf (managerOf anonymousSession)) freshWriter
          authorizeRequest).w.header "Location" = "/login" ∧
        (userAuthorization (serviceOf (managerOf anonymousSession)) freshWriter
          authorizeRequest).w.status = some 302 ∧
        kvGet s1.persisted "ReturnUri" =
          some (.str (Values.Encode authorizeRequest.parameters)) ∧
        (userAuthorization ((serviceOf (managerOf anonymousSession)).reopened
          (kvSet s1.persisted "LoggedInUserID" (.str "u1")) none)
          freshWriter authorizeRequest.ParseForm).result = .returned "u1" none ∧
        (userAuthorization ((serviceOf (managerOf anonymousSession)).reopened
          (kvSet s1.persisted "LoggedInUserID" (.str "u1")) none)
          freshWriter authorizeRequest.ParseForm).w = freshWriter ∧
        (∃ s3, (userAuthorization ((serviceOf (managerOf anonymousSession)).reopened
            (kvSet s1.persisted "LoggedInUserID" (.str "u1")) none)
            freshWriter authorizeRequest.ParseForm).session = some s3 ∧
          s3.Get "LoggedInUserID" = none ∧
          s3.Get "ReturnUri" =
            some (.str (Values.Encode authorizeRequest.ParseForm.parameters))) ∧
        HandleAuthorizeRequest
          (NewOauthServer ((serviceOf (managerOf anonymousSession)).reopened
            (kvSet s1.persisted "LoggedInUserID" (.str "u1")) none))
          sameDomain (10 * Minute) 0 "c0de" "123456" "http://localhost:9094" "" freshWriter
          authorizeRequest.ParseForm =
          (.redirectWithCode ("http://localhost:9094" ++ "?code=" ++ "c0de"),
           { value := "c0de", clientID := "123456", userID := "u1", scope := "", kind := .code,
             issuedAt := 0, expiresAt := 0 + 10 * Minute } ::
             (serviceOf (managerOf anonymousSession)).TokenStore) :=
  ⟨rfl, by decide, rfl, rfl, rfl, by decide, rfl, by decide,
    userAuthorization_login_round_trip_when_saved (serviceOf (managerOf anonymousSession))
      freshWriter freshWriter authorizeRequest authorizeRequest.ParseForm anonymousSession "u1"
      none sameDomain (10 * Minute) 0 "c0de" "123456" "http://localhost:9094" ""
      { ID := "123456", Secret := "12345678", Domain := "http://localhost:9094", UserID := "" }
      rfl (by decide) rfl rfl rfl (by decide) rfl (by decide)⟩

/-- C4, refuted as stated, at two inputs.  On `unsavableAnonymousSession` the first
call redirects but its `Save` fails, so the storage holds no `ReturnUri`, and
after the login of `u1` the gate returns `u1` on a session without `ReturnUri`.
On `anonymousSession`, when the login stores the empty string, the gate
returns it with a nil error and the authorize operation of the specification
answers with the redirect to login and issues no code. -/
theorem userAuthorization_login_round_trip_breaks :
    (unsavableAnonymousSession.Get "LoggedInUserID" = none ∧
      (userAuthorization (serviceOf (managerOf unsavableAnonymousSession)) freshWriter
        authorizeRequest).result = .returned "" none ∧
      (userAuthorization (serviceOf (managerOf unsavableAnonymousSession)) freshWriter
        authorizeRequest).session.map (fun s1 => s1.persisted) =
        some [("lang", .str "en")] ∧
      (userAuthorization ((serviceOf (managerOf unsavableAnonymousSession)).reopened
        (kvSet [("lang", .str "en")] "LoggedInUserID" (.str "u1")) none)
        freshWriter authorizeRequest).result = .returned "u1" none ∧
      (userAuthorization ((serviceOf (managerOf unsavableAnonymousSession)).reopened
        (kvSet [("lang", .str "en")] "LoggedInUserID" (.str "u1")) none)
        freshWriter authorizeRequest).session.map (fun s3 => s3.Get "ReturnUri") =
        some none) ∧
    (anonymousSession.Get "LoggedInUserID" = none ∧
      anonymousSession.saveErr = none ∧
      (userAuthorization (serviceOf (managerOf anonymousSession)) freshWriter
        authorizeRequest).session =
        some (anonymousSession.Set "ReturnUri"
          (.str (Values.Encode authorizeRequest.parameters))).Save.1 ∧
      (userAuthorization ((serviceOf (managerOf anonymousSession)).reopened
        (kvSet (anonymousSession.Set "ReturnUri"
          (.str (Values.Encode authorizeRequest.parameters))).Save.1.persisted
          "LoggedInUserID" (.str "")) none)
        freshWriter authorizeRequest).result = .returned "" none ∧
      HandleAuthorizeRequest
        (NewOauthServer ((serviceOf (managerOf anonymousSession)).reopened
          (kvSet (anonymousSession.Set "ReturnUri"
            (.str (Values.Encode authorizeRequest.parameters))).Save.1.persisted
            "LoggedInUserID" (.str "")) none))
        sameDomain (10 * Minute) 0 "c0de" "123456" "http://localhost:9094" "" freshWriter
        authorizeRequest = (.redirectToLogin, [])) := by
  refine ⟨⟨by decide, by decide, by decide, by decide, by decide⟩,
    ⟨by decide, rfl, rfl, by decide, by decide⟩⟩

theorem userAuthorization_save_error_discarded_witness :
    (serviceOf (managerOf unsavableSession)).SessionManager.Start freshWriter authorizeRequest =
        .ok unsavableSession ∧
      unsavableSession.saveErr = some { msg := "storage down" } ∧
      ((∀ u, u ≠ "" →
          ((userAuthorization (serviceOf (managerOf unsavableSession)) freshWriter
            authorizeRequest).result = .returned u none ↔
            unsavableSession.Get "LoggedInUserID" = some (.str u))) ∧
        ∃ s2, (userAuthorization (serviceOf (managerOf unsavableSession)) freshWriter
            authorizeRequest).session = some s2 ∧
          s2.persisted = unsavableSession.persisted) :=
  ⟨rfl, rfl,
    userAuthorization_save_error_discarded (serviceOf (managerOf unsavableSession))
      freshWriter authorizeRequest unsavableSession { msg := "storage down" } rfl rfl⟩

/-- C5, refuted as stated: on `unsavableSession`, whose storage answers every
`Save` with an error, the gate returns the non-empty user id `u1` with a nil
error although the `Save` it calls after the `Delete` fails, and the
storage still holds `LoggedInUserID`. -/
theorem userAuthorization_grants_when_save_fails :
    (serviceOf (managerOf unsavableSession)).SessionManager.Start freshWriter authorizeRequest =
        .ok unsavableSession ∧
      (unsavableSession.Delete "LoggedInUserID").Save.2 = some { msg := "storage down" } ∧
      (userAuthorization (serviceOf (managerOf unsavableSession)) freshWriter
        authorizeRequest).result = .returned "u1" none ∧
      "u1" ≠ "" ∧
      ((userAuthorization (serviceOf (managerOf unsavableSession)) freshWriter
        authorizeRequest).session.map (fun s2 => kvGet s2.persisted "LoggedInUserID")) =
        some (some (.str "u1")) := by
  refine ⟨rfl, by decide, by decide, by decide, by decide⟩

theorem userAuthorization_start_fails_closed_witness :
    (serviceOf (failingManager { msg := "session storage unreachable" })).SessionManager.Start
        freshWriter authorizeRequest = .error { msg := "session storage unreachable" } ∧
      ((userAuthorization (serviceOf (failingManager { msg := "session storage unreachable" }))
          freshWriter authorizeRequest).result =
          .returned "" (some { msg := "session storage unreachable" }) ∧
        (userAuthorization (serviceOf (failingManager { msg := "session storage unreachable" }))
          freshWriter authorizeRequest).calls = [] ∧
        (userAuthorization (serviceOf (failingManager { msg := "session storage unreachable" }))
          freshWriter authorizeRequest).session = none ∧
        (userAuthorization (serviceOf (failingManager { msg := "session storage unreachable" }))
          freshWriter authorizeRequest).w = freshWriter ∧
        (userAuthorization (serviceOf (failingManager { msg := "session storage unreachable" }))
          freshWriter authorizeRequest).r = authorizeRequest) :=
  ⟨rfl,
    userAuthorization_start_fails_closed
      (serviceOf (failingManager { msg := "session storage unreachable" }))
      freshWriter authorizeRequest { msg := "session storage unreachable" } rfl⟩

theorem userAuthorization_session_frame_witness :
    (serviceOf (managerOf loggedInSession)).SessionManager.Start freshWriter authorizeRequest =
        .ok loggedInSession ∧
      ∃ s2, (userAuthorization (serviceOf (managerOf loggedInSession)) freshWriter
          authorizeRequest).session = some s2 ∧
        (loggedInSession.Get "LoggedInUserID" = none →
          s2.Get "ReturnUri" = some (.str (Values.Encode authorizeRequest.parameters)) ∧
          ∀ key, key ≠ "ReturnUri" → s2.Get key = loggedInSession.Get key) ∧
        (∀ v, loggedInSession.Get "LoggedInUserID" = some v →
          s2.Get "ReturnUri" = loggedInSession.Get "ReturnUri" ∧
          ∀ key, key ≠ "LoggedInUserID" → s2.Get key = loggedInSession.Get key) ∧
        (∀ u, loggedInSession.Get "LoggedInUserID" = some (.str u) →
          s2.Get "LoggedInUserID" = none) :=
  ⟨rfl,
    userAuthorization_session_frame (serviceOf (managerOf loggedInSession)) freshWriter
      authorizeRequest loggedInSession rfl⟩

theorem userAuthorization_type_assertion_witness :
    (∀ s v, (serviceOf (managerOf loggedInSession)).SessionManager.Start freshWriter
        authorizeRequest = .ok s → s.Get "LoggedInUserID" = some v → ∃ u, v = .str u) ∧
      (userAuthorization (serviceOf (managerOf loggedInSession)) freshWriter
        authorizeRequest).result ≠ .panicked ∧
      (serviceOf (managerOf numericSession)).SessionManager.Start freshWriter authorizeRequest =
        .ok numericSession ∧
      numericSession.Get "LoggedInUserID" = some (.int 7) ∧
      (∀ u, Value.int 7 ≠ .str u) ∧
      ((userAuthorization (serviceOf (managerOf numericSession)) freshWriter
          authorizeRequest).result = .panicked ∧
        (userAuthorization (serviceOf (managerOf numericSession)) freshWriter
          authorizeRequest).session = some numericSession ∧
        (userAuthorization (serviceOf (managerOf numericSession)) freshWriter
          authorizeRequest).calls = [.get "LoggedInUserID"]) :=
  have hstr : ∀ s v, (serviceOf (managerOf loggedInSession)).SessionManager.Start freshWriter
      authorizeRequest = .ok s → s.Get "LoggedInUserID" = some v → ∃ u, v = .str u :=
    fun s v hs hv => by
      have hs2 : loggedInSession = s := Except.ok.inj hs
      subst hs2
      exact ⟨"u1", (Option.some.inj hv).symm⟩
  ⟨hstr,
    userAuthorization_type_assertion.1 (serviceOf (managerOf loggedInSession)) freshWriter
      authorizeRequest hstr,
    rfl, rfl, fun _ h => Value.noConfusion h,
    userAuthorization_type_assertion.2.1 (serviceOf (managerOf numericSession)) freshWriter
      authorizeRequest numericSession (.int 7) rfl rfl (fun _ h => Value.noConfusion h)⟩

theorem NewClientStore_registry_lookup_witness :
    (twoClients.map Prod.fst).Nodup ∧
      twoClients.reverse.Perm twoClients ∧
      ((∀ id c, (id, c) ∈ twoClients → (NewClientStore twoClients.reverse).GetByID id = .ok c) ∧
        (∀ id, id ∉ twoClients.map Prod.fst →
          (NewClientStore twoClients.reverse).GetByID id = .error { msg := "not found" })) :=
  ⟨by decide, List.reverse_perm twoClients,
    NewClientStore_registry_lookup.1 twoClients twoClients.reverse (by decide)
      (List.reverse_perm twoClients)⟩

end Oauth
